import Mathlib

/-!
Verification of the ZKP-SNARK-VOTING repository's specification against its
source. The definitions below shallowly embed the repository's circuits
(`src/circuits/vote/vote.circom`, `src/circuits/admin/admin.circom`), the
zero-knowledge-proof service (`src/backend/src/services/zkpService.js`), the
mock proof verifier (`src/backend/src/utils/zkProofVerifier.js`,
`src/unnamed/part_011`), the vote and registration controllers
(`src/unnamed/part_000`, `src/unnamed/part_008`,
`src/backend/src/controllers/candidateController.js`) and the on-chain
contract (`src/contracts/VotingContract.sol`).
-/

namespace ZkVoting

/-- Stand-in for the circomlib Poseidon hash primitive. Poseidon itself is an
external library (`circomlib/circuits/poseidon.circom`), not part of this
repository's sources; only the arity and the argument structure of every call
site are taken from the circuit sources. The stand-in is an executable
compression of the input list (seeded with the arity, so lists of different
lengths collide only accidentally), adequate for stating exactly which inputs
each circuit feeds to the hash. -/
def poseidon (xs : List Nat) : Nat :=
  xs.foldl (fun acc x => acc * 1000003 + x + 7) (xs.length + 1)

/-- Stand-in for Node's `crypto.createHash('sha256').update(s).digest('hex')`
over a string. The real SHA-256 is an external primitive; only the strings
each call site hashes are taken from the source. The result is a natural
number standing for the hex digest. -/
def sha256 (s : String) : Nat :=
  s.toList.foldl (fun acc c => acc * 65599 + c.toNat + 1) (s.length + 1)

/-! ## Circuit contracts (`src/circuits/vote/vote.circom`, `src/circuits/admin/admin.circom`) -/

/-- The `VoterAuth` circuit's public `hashedIdentifier` output:
`Poseidon(1)` applied to the identifier preimage alone. -/
def voterAuthHashedIdentifier (identifierPreimage : Nat) : Nat :=
  poseidon [identifierPreimage]

/-- The `VoterAuth` circuit's public `nullifierHash` output: the
`nullifierHasher = Poseidon(2)` component receives
`inputs[0] <== identifierPreimage` and `inputs[1] <== nullifierSecret`
(vote.circom lines 185-188 and 222-225) and nothing else. -/
def voterAuthNullifierHash (identifierPreimage nullifierSecret : Nat) : Nat :=
  poseidon [identifierPreimage, nullifierSecret]

/-- The `AnonymousVote` circuit's public `nullifierHash` output: the same
`Poseidon(2)` applied to the same two private inputs (vote.circom lines
24-27 and 60-63). -/
def anonymousVoteNullifierHash (identifierPreimage nullifierSecret : Nat) : Nat :=
  poseidon [identifierPreimage, nullifierSecret]

/-- The `AnonymousVote` circuit's public `choiceHash` output: the
`choiceHasher = Poseidon(1)` component receives `inputs[0] <== choice` only
(vote.circom lines 30-32 and 69-71). -/
def anonymousVoteChoiceHash (choice : Nat) : Nat :=
  poseidon [choice]

/-- The `AdminAction` circuit's public `adminProof` output:
`Poseidon(1)(adminKey)` (admin.circom lines 24-26). -/
def adminActionAdminProof (adminKey : Nat) : Nat :=
  poseidon [adminKey]

/-- The `AdminAction` circuit's public `actionHash` output:
`Poseidon(3)(adminKey, actionData, actionNonce)` (admin.circom lines 30-34). -/
def adminActionActionHash (adminKey actionData actionNonce : Nat) : Nat :=
  poseidon [adminKey, actionData, actionNonce]

/-- Modelled from the spec: the nullifier derivation the specification claims,
`H(identitySecret, nullifierSecret, domainTag)` with a circuit-kind domain tag
mixed into the hash ("Nullifier — H(identitySecret, nullifierSecret,
domainTag)"; Identity-circuit constraint "nullifierHash == H(identitySecret,
nullifierSecret, \x22auth\x22)"). The string tag is carried into the field
through the same string compression used for the other hashes. -/
def specTaggedNullifier (identitySecret nullifierSecret : Nat) (domainTag : String) : Nat :=
  poseidon [identitySecret, nullifierSecret, sha256 domainTag]

/-- Modelled from the spec: the vote choice commitment the specification
claims, `H(choice, nullifierSecret)` ("binds choiceCommitment == H(choice,
nullifierSecret)"). -/
def specChoiceCommitment (choice nullifierSecret : Nat) : Nat :=
  poseidon [choice, nullifierSecret]

/-! ## Proof objects and the zkp service (`src/backend/src/services/zkpService.js`) -/

/-- A Groth16 proof object as the JavaScript code handles it: the three point
fields `pi_a`, `pi_b`, `pi_c`, each possibly absent (`undefined` in JS). A
request's `zkProof` parameter is an `Option ZkProofObj`; `none` stands for a
missing or null argument, and every present object is truthy in JS. The point
coordinates are the strings the source puts there. -/
structure ZkProofObj where
  pi_a : Option (List String)
  pi_b : Option (List (List String))
  pi_c : Option (List String)
deriving DecidableEq

/-- An entirely empty proof object (all three point fields absent); truthy in
JS once wrapped in `some`. -/
def emptyProofObj : ZkProofObj :=
  { pi_a := none, pi_b := none, pi_c := none }

/-- The mock proof points hard-coded by `zkpService.generateAuthProof`
(lines 56-61) and by part_011's `generateAuthProof` (lines 38-43). -/
def mockAuthPoints : ZkProofObj :=
  { pi_a := some ["mock_pi_a_1", "mock_pi_a_2"]
    pi_b := some [["mock_pi_b_1_1", "mock_pi_b_1_2"], ["mock_pi_b_2_1", "mock_pi_b_2_2"]]
    pi_c := some ["mock_pi_c_1", "mock_pi_c_2"] }

/-- The mock proof points hard-coded by `zkpService.generateVoteProof`
(lines 156-161). -/
def mockVotePoints : ZkProofObj :=
  { pi_a := some ["mock_vote_pi_a_1", "mock_vote_pi_a_2"]
    pi_b := some [["mock_vote_pi_b_1_1", "mock_vote_pi_b_1_2"],
                  ["mock_vote_pi_b_2_1", "mock_vote_pi_b_2_2"]]
    pi_c := some ["mock_vote_pi_c_1", "mock_vote_pi_c_2"] }

/-- The mock proof points hard-coded by `zkpService.generateAdminActionProof`
(lines 258-263). -/
def mockAdminPoints : ZkProofObj :=
  { pi_a := some ["mock_admin_pi_a_1", "mock_admin_pi_a_2"]
    pi_b := some [["mock_admin_pi_b_1_1", "mock_admin_pi_b_1_2"],
                  ["mock_admin_pi_b_2_1", "mock_admin_pi_b_2_2"]]
    pi_c := some ["mock_admin_pi_c_1", "mock_admin_pi_c_2"] }

/-- The result of `zkpService.generateAuthProof` in its mock branch (lines
49-71), taken when `USE_MOCK_PROOFS` is set or the circuit artifacts are
absent (none are committed in the repository): the hard-coded points and
public signals `[sha256(identifierPreimage),
sha256("nullifier-" + identifierPreimage + "-" + nullifierSecret)]`. The
source consults no clock and no randomness here: the output is a function of
the two secrets alone. -/
def zkpsGenerateAuthProofMock (identifierPreimage nullifierSecret : String) :
    ZkProofObj × List Nat :=
  (mockAuthPoints,
   [sha256 identifierPreimage,
    sha256 ("nullifier-" ++ identifierPreimage ++ "-" ++ nullifierSecret)])

/-- The result of `zkpService.generateVoteProof` in its mock branch (lines
149-170): public signals `[sha256("nullifier-" + identifierPreimage + "-" +
nullifierSecret), sha256(choice)]`. The choice signal hashes the choice alone;
the nullifier secret does not enter it. -/
def zkpsGenerateVoteProofMock (identifierPreimage nullifierSecret choice : String) :
    ZkProofObj × List Nat :=
  (mockVotePoints,
   [sha256 ("nullifier-" ++ identifierPreimage ++ "-" ++ nullifierSecret),
    sha256 choice])

/-- The mock branch of `zkpService.verifyProof` (lines 110-117), taken when
`USE_MOCK_PROOFS` is set or the auth verification-key file is absent: the
result is `!!zkProof` — true exactly when a proof argument is present,
regardless of its contents and regardless of the public signals presented. -/
def zkpsVerifyProofMock (zkProof : Option ZkProofObj) (publicSignals : List String) : Bool :=
  zkProof.isSome

/-- The mock branch of `zkpService.verifyVoteProof` (lines 211-218): again
`!!zkProof`, ignoring the presented public signals entirely. -/
def zkpsVerifyVoteProofMock (zkProof : Option ZkProofObj) (publicSignals : List Nat) : Bool :=
  zkProof.isSome

/-- The mock branch of `zkpService.verifyAdminActionProof` (lines 319-326):
`!!zkProof`, ignoring the presented public signals. (Its call sites in the
candidate controller pass the admin user's hashed identifier in the
public-signals position.) -/
def zkpsVerifyAdminActionProofMock (zkProof : Option ZkProofObj) (publicSignals : String) : Bool :=
  zkProof.isSome

/-- The function `verifyProof` of `src/backend/src/utils/zkProofVerifier.js`
(lines 17-42): returns false when the proof argument is missing or any of its
`pi_a`, `pi_b`, `pi_c` fields is absent, and true otherwise — the nullifier
hash and the optional public signals are never inspected. -/
def zkProofVerifier_verifyProof (proof : Option ZkProofObj) (nullifierHash : String)
    (publicSignals : List String) : Bool :=
  match proof with
  | none => false
  | some p => p.pi_a.isSome && p.pi_b.isSome && p.pi_c.isSome

/-! ## The real verification path, deferred to the external proving system -/

/-- Modelled from the spec: `snarkjs.groth16.verify` is the external proving
system ("assume a proven external proving system is used"); spec §4.3 states
the binding contract — the Verifier "never accepts a proof whose public
signals were altered after generation; the verification key binds proof
validity to the exact public-signal vector presented". A proof is therefore
modelled as carrying the verification-key identifier and the public-signal
vector it was generated against, and `verify` accepts exactly when both match
the presented pair. -/
structure Groth16Proof where
  vkey : Nat
  signals : List Nat
deriving DecidableEq

/-- Acceptance predicate of the modelled external Groth16 verifier. -/
def groth16Verify (vkey : Nat) (publicSignals : List Nat) (p : Groth16Proof) : Bool :=
  p.vkey == vkey && p.signals == publicSignals

/-- Identifier of the vote circuit's verification key
(`circuits/vote/verification_key.json`). -/
def voteVkey : Nat := 2

/-- The non-mock branch of `zkpService.generateVoteProof` (lines 173-193):
`snarkjs.groth16.fullProve` on the `AnonymousVote` circuit, whose public
signals are the circuit outputs `[nullifierHash, choiceHash]`. -/
def generateVoteProofReal (identifierPreimage nullifierSecret choice : Nat) : Groth16Proof :=
  { vkey := voteVkey
    signals := [anonymousVoteNullifierHash identifierPreimage nullifierSecret,
                anonymousVoteChoiceHash choice] }

/-- The non-mock branch of `zkpService.verifyVoteProof` (lines 220-231):
`snarkjs.groth16.verify` with the vote verification key, the presented public
signals and the presented proof. -/
def verifyVoteProofReal (zkProof : Groth16Proof) (publicSignals : List Nat) : Bool :=
  groth16Verify voteVkey publicSignals zkProof

/-! ## In-memory voting ledger (`src/unnamed/part_000`, lines 23-34 and 115-150) -/

/-- A row of the mock in-memory `voters` array. -/
structure MemVoter where
  id : String
  commitment : String
  hasVoted : Bool
deriving DecidableEq

/-- A row of the in-memory `votes` array: `{ vote, nullifierHash, timestamp }`
(the timestamp is not modelled). -/
structure MemVoteRec where
  vote : String
  nullifierHash : String
deriving DecidableEq

/-- The in-memory server state: the `voters` array, the `votes` array and the
`nullifierHashes` set (a JS `Set` of strings, modelled as the list of its
insertions). -/
structure MemState where
  voters : List MemVoter
  votes : List MemVoteRec
  nullifierHashes : List String
deriving DecidableEq

/-- Responses of `POST /api/voting/cast` in part_000. -/
inductive MemCastResp
  | alreadyVoted
  | invalidProof
  | success
deriving DecidableEq

/-- `voters.find(v => req.user.id === v.id)` followed by `voter.hasVoted =
true`: marks the first voter whose id matches, if any. -/
def markVoterFirst : List MemVoter → String → List MemVoter
  | [], _ => []
  | v :: vs, uid =>
    if v.id == uid then { v with hasVoted := true } :: vs
    else v :: markVoterFirst vs uid

/-- The handler of `app.post('/api/voting/cast')` (part_000 lines 115-150):
reject with 409 when the nullifier hash is already in the set; otherwise (the
proof check is hard-coded `isProofValid = true` at line 125) push the vote,
add the nullifier hash to the set, and mark the authenticated voter as having
voted. The random transaction hash of line 144 is not modelled. -/
def memCastVote (st : MemState) (vote nullifierHash userId : String) :
    MemCastResp × MemState :=
  if st.nullifierHashes.any (fun x => x == nullifierHash) then
    (.alreadyVoted, st)
  else
    let isProofValid := true
    if !isProofValid then (.invalidProof, st)
    else
      (.success,
       { voters := markVoterFirst st.voters userId
         votes := st.votes ++ [{ vote := vote, nullifierHash := nullifierHash }]
         nullifierHashes := st.nullifierHashes ++ [nullifierHash] })

/-! ## Database-backed vote controller (`src/unnamed/part_008`, lines 213-278) -/

/-- A document of the `Vote` collection (`src/backend/src/models/Vote.js`):
`nullifierHash` (declared unique), `choice`, the stringified proof (kept here
as the proof object itself), and the optional `transactionHash`. -/
structure DbVote where
  nullifierHash : String
  choice : String
  proof : ZkProofObj
  transactionHash : Option String
deriving DecidableEq

/-- The slice of a `User` document the vote controller touches. -/
structure DbUser where
  nullifierHash : Option String
  hasVoted : Bool
deriving DecidableEq

/-- The database state the vote controller reads and writes. -/
structure DbState where
  votes : List DbVote
  users : List DbUser
deriving DecidableEq

/-- Responses of `voteController.castVote`. -/
inductive DbCastResp
  | missingFields
  | alreadyVoted
  | invalidProof
  | created (txHash : Option String)
deriving DecidableEq

/-- `User.findOneAndUpdate({ nullifierHash }, { hasVoted: true })`: updates the
first user whose nullifierHash matches, if any. -/
def markUserFirst : List DbUser → String → List DbUser
  | [], _ => []
  | u :: us, nh =>
    if u.nullifierHash == some nh then { u with hasVoted := true } :: us
    else u :: markUserFirst us nh

/-- `voteController.castVote` (part_008 lines 213-278), with the results of
its awaited external calls passed explicitly: `proofValid` is the value of
`zkpService.verifyVoteProof(zkProof, nullifierHash, choice)`, and
`blockchainTx` is `some hash` when `blockchainService.submitVote` returned a
hash and `none` when it threw — the catch block at lines 249-252 swallows the
error and the controller continues with `transactionHash = null`. Order of
checks, exactly as in the source: missing fields (400), then the
`Vote.findOne({ nullifierHash })` double-vote check (400), then proof
verification (400), then the vote is recorded and 201 returned. -/
def dbCastVote (st : DbState) (choice : Option String) (zkProof : Option ZkProofObj)
    (nullifierHash : String) (proofValid : Bool) (blockchainTx : Option String) :
    DbCastResp × DbState :=
  match choice, zkProof with
  | some ch, some pf =>
    if st.votes.any (fun v => v.nullifierHash == nullifierHash) then
      (.alreadyVoted, st)
    else if !proofValid then
      (.invalidProof, st)
    else
      (.created blockchainTx,
       { votes := st.votes ++ [{ nullifierHash := nullifierHash, choice := ch,
                                 proof := pf, transactionHash := blockchainTx }]
         users := markUserFirst st.users nullifierHash })
  | _, _ => (.missingFields, st)

/-! ## On-chain contract (`src/contracts/VotingContract.sol`, lines 63-85) -/

/-- The contract state: `votingOpen`, the `nullifierUsed` mapping (as the list
of nullifiers set to true), the `votesByChoice` mapping (as an association
list), and `totalVotes`. -/
structure ContractState where
  votingOpen : Bool
  nullifierUsed : List Nat
  votesByChoice : List (Nat × Nat)
  totalVotes : Nat
deriving DecidableEq

/-- `votesByChoice[_choiceHash]++` on the association-list model of the
mapping (absent keys read as 0). -/
def bumpChoice : List (Nat × Nat) → Nat → List (Nat × Nat)
  | [], ch => [(ch, 1)]
  | (c, k) :: rest, ch =>
    if c == ch then (c, k + 1) :: rest else (c, k) :: bumpChoice rest ch

/-- `VotingContract.castVote` (lines 63-85): reverts (`Except.error` with the
require message) when voting is closed or the nullifier was already used;
otherwise marks the nullifier used, increments the choice's count and the
total. The `_proof` bytes are unused — the verifier call is commented out in
the source (line 72). -/
def contractCastVote (st : ContractState) (nullifierHash choiceHash : Nat) :
    Except String ContractState :=
  if !st.votingOpen then .error "Voting is not open"
  else if st.nullifierUsed.any (fun x => x == nullifierHash) then
    .error "Vote already cast with this nullifier"
  else
    .ok { st with
          nullifierUsed := st.nullifierUsed ++ [nullifierHash]
          votesByChoice := bumpChoice st.votesByChoice choiceHash
          totalVotes := st.totalVotes + 1 }

/-! ## Voter registration (`src/unnamed/part_008`, `authController.registerVoter`, lines 22-64) -/

/-- A row of the registration store: the server-side re-hashed identifier and
the admin flag. -/
structure RegUser where
  hashedIdentifier : Nat
  isAdmin : Bool
deriving DecidableEq

/-- Responses of `registerVoter`. -/
inductive RegisterResp
  | missingIdentifier
  | alreadyRegistered
  | registered
deriving DecidableEq

/-- `authController.registerVoter` (part_008 lines 22-64): 400 when no
`hashedIdentifier` is supplied; otherwise the identifier is hashed again
server-side with sha256, a `User.findOne` on that value decides between the
400 duplicate response (store untouched) and a single `User.create` of the new
non-admin row followed by 201. -/
def registerVoter (st : List RegUser) (hashedIdentifier : Option String) :
    RegisterResp × List RegUser :=
  match hashedIdentifier with
  | none => (.missingIdentifier, st)
  | some hid =>
    let serverHashedId := sha256 hid
    if st.any (fun u => u.hashedIdentifier == serverHashedId) then
      (.alreadyRegistered, st)
    else
      (.registered, st ++ [{ hashedIdentifier := serverHashedId, isAdmin := false }])

/-! ## Candidate controller (`src/backend/src/controllers/candidateController.js`, `addCandidate`, lines 65-139) -/

/-- The `zkProof` request field as the candidate controller consumes it: the
proof points plus the claimed public signals `[adminProof, actionHash]`
(the controller reads `zkProof.publicSignals[1]`). -/
structure AdminZkProof where
  proof : ZkProofObj
  publicSignals : List String
deriving DecidableEq

/-- A document of the `Candidate` collection. -/
structure CandidateRec where
  candidateId : String
  name : String
  description : String
  isActive : Bool
  modificationProof : String
deriving DecidableEq

/-- Responses of `addCandidate`. -/
inductive AddCandidateResp
  | unauthorized
  | missingFields
  | adminNotFound
  | invalidProof
  | created (c : CandidateRec)
deriving DecidableEq

/-- `candidateController.addCandidate` (lines 65-139), with the request-time
environment passed explicitly: `isAdminReq` is the JWT's isAdmin flag,
`adminUser` the result of `User.findById` (carrying the admin's
hashedIdentifier, used as `expectedAdminProof`), and `candidateId` the
controller-generated id (derived from `Date.now()` and random bytes, hence
fresh per call). The admin proof is verified through the mock branch of
`zkpService.verifyAdminActionProof` — no verification key is committed — and
no nonce or nullifier ledger is consulted anywhere: on success the candidate
is created with `modificationProof := zkProof.publicSignals[1]` and 201
returned. -/
def addCandidate (st : List CandidateRec) (isAdminReq : Bool)
    (name description : Option String) (isActive : Option Bool)
    (zkProof : Option AdminZkProof) (adminUser : Option String)
    (candidateId : String) : AddCandidateResp × List CandidateRec :=
  if !isAdminReq then (.unauthorized, st)
  else
    match name, description, zkProof with
    | some nm, some desc, some pf =>
      match adminUser with
      | none => (.adminNotFound, st)
      | some expectedAdminProof =>
        if !(zkpsVerifyAdminActionProofMock (some pf.proof) expectedAdminProof) then
          (.invalidProof, st)
        else
          let actionHash := pf.publicSignals.getD 1 ""
          let c : CandidateRec :=
            { candidateId := candidateId, name := nm, description := desc,
              isActive := isActive.getD true, modificationProof := actionHash }
          (.created c, st ++ [c])
    | _, _, _ => (.missingFields, st)

/-! ## part_011 authentication proof generation (`generateAuthProof`, lines 31-54) -/

/-- The mock proof object part_011's `generateAuthProof` returns:
`publicSignals = [hashedIdentifier]` and a `nullifierHash` computed as
`sha256("nullifier-" + hashedIdentifier + "-" + Date.now())`. -/
structure P11AuthProof where
  proof : ZkProofObj
  publicSignals : List String
  nullifierHash : Nat
deriving DecidableEq

/-- part_011 `generateAuthProof` (lines 31-54), with the `Date.now()` reading
passed explicitly as `now`: the emitted nullifier hash mixes the current time
into the digest, so it changes from call to call. -/
def p11GenerateAuthProof (hashedIdentifier : String) (now : Nat) : P11AuthProof :=
  { proof := mockAuthPoints
    publicSignals := [hashedIdentifier]
    nullifierHash := sha256 ("nullifier-" ++ hashedIdentifier ++ "-" ++ toString now) }

/-- part_011 `verifyProof` (lines 62-86): false when the proof argument is
missing, and hard-coded true otherwise ("For demo purposes, we'll say any
proof is valid"). -/
def p11VerifyProof (zkProof : Option P11AuthProof) (hashedIdentifier : String) : Bool :=
  zkProof.isSome

/-! ## The double-vote race in the database controller

`voteController.castVote` performs `await Vote.findOne({ nullifierHash })` and,
several awaited calls later, `await Vote.create(...)`. Between the two, other
requests are free to run. The `Vote` schema declares `nullifierHash` unique,
so the second of two racing inserts throws a duplicate-key error, which the
controller's catch forwards to the error middleware as a 500 — not as the
"already voted" rejection. -/

/-- The check phase of `castVote`: the `Vote.findOne({ nullifierHash })`
lookup. -/
def raceCheck (votes : List DbVote) (nullifierHash : String) : Bool :=
  votes.any (fun v => v.nullifierHash == nullifierHash)

/-- The insert phase of `castVote`: `Vote.create` under the collection's
unique index on `nullifierHash` — `none` is the duplicate-key throw. -/
def dbInsertUnique (votes : List DbVote) (v : DbVote) : Option (List DbVote) :=
  if votes.any (fun w => w.nullifierHash == v.nullifierHash) then none
  else some (votes ++ [v])

/-- Per-request outcome of the interleaved execution. -/
inductive RaceResp
  | alreadyVoted
  | created (txHash : Option String)
  | serverError
deriving DecidableEq

/-- Interleaved execution of two `castVote` requests carrying the same
nullifier hash, under the schedule the controller's awaits permit: both
`findOne` checks run against the initial collection, then request 1's insert,
then request 2's insert. Returns the two responses and the final collection.
A request whose check finds the nullifier answers `alreadyVoted`; a request
whose insert hits the unique index answers `serverError` (the caught
duplicate-key error). -/
def castVoteRace (votes0 : List DbVote) (nullifierHash ch1 ch2 : String)
    (pf : ZkProofObj) (tx1 tx2 : Option String) :
    RaceResp × RaceResp × List DbVote :=
  let found1 := raceCheck votes0 nullifierHash
  let found2 := raceCheck votes0 nullifierHash
  if found1 then
    if found2 then (.alreadyVoted, .alreadyVoted, votes0)
    else
      match dbInsertUnique votes0
          { nullifierHash := nullifierHash, choice := ch2, proof := pf,
            transactionHash := tx2 } with
      | some votes1 => (.alreadyVoted, .created tx2, votes1)
      | none => (.alreadyVoted, .serverError, votes0)
  else
    match dbInsertUnique votes0
        { nullifierHash := nullifierHash, choice := ch1, proof := pf,
          transactionHash := tx1 } with
    | none => (.serverError, .serverError, votes0)
    | some votes1 =>
      if found2 then (.created tx1, .alreadyVoted, votes1)
      else
        match dbInsertUnique votes1
            { nullifierHash := nullifierHash, choice := ch2, proof := pf,
              transactionHash := tx2 } with
        | some votes2 => (.created tx1, .created tx2, votes2)
        | none => (.created tx1, .serverError, votes1)

/-! ## Claims about the circuits' hash derivations -/

/-- C3 fails as stated on the code: at identitySecret 12345678 and
nullifierSecret 87654321, the auth circuit's nullifier hash coincides exactly
with the vote circuit's nullifier hash (both are `Poseidon(2)` of the same two
secrets), and it differs from the claimed tagged derivation
`H(identitySecret, nullifierSecret, "auth")` — no domain tag enters the
hash. -/
theorem C3_counterexample :
    voterAuthNullifierHash 12345678 87654321
      = anonymousVoteNullifierHash 12345678 87654321
    ∧ voterAuthNullifierHash 12345678 87654321
      ≠ specTaggedNullifier 12345678 87654321 "auth" := by
  exact ⟨rfl, by decide⟩

/-- C3 (amended): for every witness, the Identity circuit's public
nullifierHash equals `Poseidon(identitySecret, nullifierSecret)` with no
domain tag, and the vote circuit computes the identical nullifier from the
same secrets, so auth-circuit and vote-circuit nullifiers always coincide for
the same secrets. -/
theorem C3_nullifier_untagged (identitySecret nullifierSecret : Nat) :
    voterAuthNullifierHash identitySecret nullifierSecret
      = poseidon [identitySecret, nullifierSecret]
    ∧ voterAuthNullifierHash identitySecret nullifierSecret
      = anonymousVoteNullifierHash identitySecret nullifierSecret := ⟨rfl, rfl⟩

/-- C4 fails as stated on the code: at choice 5 and nullifierSecret 7, the
vote circuit's public choice commitment (which is `Poseidon(1)` of the choice
alone) differs from the claimed `H(choice, nullifierSecret)`. -/
theorem C4_counterexample :
    anonymousVoteChoiceHash 5 ≠ specChoiceCommitment 5 7 := by decide

/-- C4 (amended): the vote circuit's public choice commitment is
`Poseidon(choice)` of the choice alone, and the mock vote-proof generator's
choice signal is `sha256(choice)` alone — neither derivation involves the
nullifier secret, so the commitment does not bind the choice to the
session. -/
theorem C4_choice_commitment_choice_only (choice : Nat)
    (preimage nsec1 nsec2 ch : String) :
    anonymousVoteChoiceHash choice = poseidon [choice]
    ∧ (zkpsGenerateVoteProofMock preimage nsec1 ch).2.getD 1 0 = sha256 ch
    ∧ (zkpsGenerateVoteProofMock preimage nsec1 ch).2.getD 1 0
        = (zkpsGenerateVoteProofMock preimage nsec2 ch).2.getD 1 0 := by
  refine ⟨rfl, ?_, ?_⟩ <;>
    simp [zkpsGenerateVoteProofMock, List.getD_cons_succ, List.getD_cons_zero]

/-! ## Claims about proof verification -/

/-- C2 fails as stated on the code: no verification key is committed in the
repository, so `zkpService.verifyVoteProof` runs its mock branch, which
accepts the proof generated for choice "A" even when the public choice
commitment is replaced by the commitment of the different choice "B". -/
theorem C2_counterexample :
    sha256 "A" ≠ sha256 "B"
    ∧ zkpsVerifyVoteProofMock (some (zkpsGenerateVoteProofMock "id" "sec" "A").1)
        [sha256 "nullifier-id-sec", sha256 "B"] = true := by
  exact ⟨by decide, rfl⟩

/-- C2 (amended): only in the non-mock branch does `verifyVoteProof` pass the
presented public-signal vector to the external Groth16 verifier, which then
rejects a proof generated for choice A when the public choiceCommitment is
swapped for the commitment of a different choice B; the mock branch accepts
regardless. -/
theorem C2_real_mode_binding (identifierPreimage nullifierSecret a b : Nat)
    (h : anonymousVoteChoiceHash a ≠ anonymousVoteChoiceHash b) :
    verifyVoteProofReal (generateVoteProofReal identifierPreimage nullifierSecret a)
      [anonymousVoteNullifierHash identifierPreimage nullifierSecret,
       anonymousVoteChoiceHash b] = false := by
  simp only [verifyVoteProofReal, generateVoteProofReal, groth16Verify]
  simp [h]

/-- Witness for C2's amended theorem at identifierPreimage 1, nullifierSecret
2, choice A = 3, choice B = 4. -/
theorem C2_real_mode_binding_witness :
    verifyVoteProofReal (generateVoteProofReal 1 2 3)
      [anonymousVoteNullifierHash 1 2, anonymousVoteChoiceHash 4] = false :=
  C2_real_mode_binding 1 2 3 4 (by decide)

/-- C10 fails as stated on the code: `zkProofVerifier.verifyProof` (one of the
cited verifiers) does inspect the proof's contents — a present (truthy) proof
object whose `pi_a`, `pi_b`, `pi_c` fields are absent is rejected. -/
theorem C10_counterexample :
    (some emptyProofObj).isSome = true
    ∧ zkProofVerifier_verifyProof (some emptyProofObj) "nullifier-hash" [] = false :=
  ⟨rfl, rfl⟩

/-- C10 (amended): in mock-verification mode the three zkpService verifiers
return true for every present (truthy) proof object, regardless of the
proof's contents and of the public signals presented; `zkProofVerifier.
verifyProof` returns true exactly when the proof object is present and its
`pi_a`, `pi_b`, `pi_c` fields are all present, likewise ignoring the
nullifier hash and public signals. -/
theorem C10_mock_verification (pObj : ZkProofObj) (sigA sigP : List String)
    (sigV : List Nat) (sigAd nh : String) :
    zkpsVerifyProofMock (some pObj) sigA = true
    ∧ zkpsVerifyVoteProofMock (some pObj) sigV = true
    ∧ zkpsVerifyAdminActionProofMock (some pObj) sigAd = true
    ∧ (zkProofVerifier_verifyProof (some pObj) nh sigP = true
        ↔ (pObj.pi_a.isSome = true ∧ pObj.pi_b.isSome = true
            ∧ pObj.pi_c.isSome = true)) := by
  refine ⟨rfl, rfl, rfl, ?_⟩
  simp [zkProofVerifier_verifyProof, Bool.and_eq_true, and_assoc]

/-! ## Claims about proof generation -/

/-- C7 fails as stated on the code: part_011's `generateAuthProof` mixes the
`Date.now()` reading into the nullifier digest, so two invocations with the
same identifier at clock readings 1 and 2 emit different nullifier hashes. -/
theorem C7_counterexample :
    (p11GenerateAuthProof "id1" 1).nullifierHash
      ≠ (p11GenerateAuthProof "id1" 2).nullifierHash := by decide

/-- C7 (amended): `zkpService.generateAuthProof` emits public signals that are
a deterministic function of the two secrets alone (the mock branch consults no
clock or randomness), and prove-then-verify accepts in both implementations;
but part_011's `generateAuthProof` derives its nullifier from the current
time, so repeated invocations emit different nullifiers. -/
theorem C7_deterministic_mock_accepts (preimage nsec : String) (sig : List String)
    (id2 : String) (t : Nat) :
    (zkpsGenerateAuthProofMock preimage nsec).2
      = [sha256 preimage, sha256 ("nullifier-" ++ preimage ++ "-" ++ nsec)]
    ∧ zkpsVerifyProofMock (some (zkpsGenerateAuthProofMock preimage nsec).1) sig = true
    ∧ p11VerifyProof (some (p11GenerateAuthProof id2 t)) id2 = true := ⟨rfl, rfl, rfl⟩

/-! ## Claims about the admin action path -/

/-- C5: the code accepts the replay. Submitting the identical admin
proof/public-signals pair twice: the first `addCandidate` call is accepted and
creates a candidate, and the second, identical submission is accepted again
and creates a second candidate — no nonce or nullifier ledger rejects the
replayed authorization. -/
theorem C5_admin_replay_accepted :
    let pf : AdminZkProof :=
      { proof := mockAdminPoints, publicSignals := ["adminproof", "actionhash"] }
    let r1 := addCandidate [] true (some "add-candidate:X") (some "desc") none (some pf)
        (some "adminproof") "candidate-1"
    let r2 := addCandidate r1.2 true (some "add-candidate:X") (some "desc") none (some pf)
        (some "adminproof") "candidate-2"
    r1.1 = .created { candidateId := "candidate-1", name := "add-candidate:X",
                      description := "desc", isActive := true,
                      modificationProof := "actionhash" }
    ∧ r2.1 = .created { candidateId := "candidate-2", name := "add-candidate:X",
                        description := "desc", isActive := true,
                        modificationProof := "actionhash" }
    ∧ r2.2.length = 2 := ⟨rfl, rfl, rfl⟩

/-! ## Claims about registration and vote casting -/

/-- C8: `registerVoter` creates exactly one new registration row and answers
201 when the (server-re-hashed) commitment is not yet stored, and answers the
duplicate error leaving the store unchanged when it already is. -/
theorem C8_register_duplicate_check (st : List RegUser) (hid : String) :
    (st.any (fun u => u.hashedIdentifier == sha256 hid) = false →
      registerVoter st (some hid)
        = (.registered, st ++ [{ hashedIdentifier := sha256 hid, isAdmin := false }]))
    ∧ (st.any (fun u => u.hashedIdentifier == sha256 hid) = true →
      registerVoter st (some hid) = (.alreadyRegistered, st)) := by
  constructor
  · intro h
    simp [registerVoter, h]
  · intro h
    simp [registerVoter, h]

/-- Witness for C8 at the identifier "voter-1": fresh registration succeeds
and appends one row; re-registration of the same identifier is refused with
the store unchanged. -/
theorem C8_register_witness :
    registerVoter [] (some "voter-1")
      = (.registered, [{ hashedIdentifier := sha256 "voter-1", isAdmin := false }])
    ∧ registerVoter [{ hashedIdentifier := sha256 "voter-1", isAdmin := false }]
        (some "voter-1")
      = (.alreadyRegistered, [{ hashedIdentifier := sha256 "voter-1", isAdmin := false }]) := by
  exact ⟨(C8_register_duplicate_check [] "voter-1").1 (by decide),
         (C8_register_duplicate_check
           [{ hashedIdentifier := sha256 "voter-1", isAdmin := false }] "voter-1").2
           (by decide)⟩

/-- C9: when the blockchain submission throws (`blockchainTx = none`, the
caught-error path), `castVote` still records the vote with a null transaction
hash, answers 201 success, and the nullifier is recorded as consumed. -/
theorem C9_blockchain_failure_nonblocking (st : DbState) (ch : String)
    (pf : ZkProofObj) (nh : String)
    (hUnused : st.votes.any (fun v => v.nullifierHash == nh) = false) :
    dbCastVote st (some ch) (some pf) nh true none
      = (.created none,
         { votes := st.votes ++ [{ nullifierHash := nh, choice := ch, proof := pf,
                                   transactionHash := none }]
           users := markUserFirst st.users nh })
    ∧ ((dbCastVote st (some ch) (some pf) nh true none).2.votes.any
        (fun v => v.nullifierHash == nh)) = true := by
  have h1 : dbCastVote st (some ch) (some pf) nh true none
      = (.created none,
         { votes := st.votes ++ [{ nullifierHash := nh, choice := ch, proof := pf,
                                   transactionHash := none }]
           users := markUserFirst st.users nh }) := by
    simp [dbCastVote, hUnused]
  refine ⟨h1, ?_⟩
  rw [h1]
  simp [List.any_append]

/-- Witness for C9: on an empty database, a vote whose blockchain submission
failed is still recorded with a null transaction hash and 201 returned. -/
theorem C9_witness :
    dbCastVote { votes := [], users := [] } (some "option1") (some emptyProofObj)
        "nh-1" true none
      = (.created none,
         { votes := [{ nullifierHash := "nh-1", choice := "option1",
                       proof := emptyProofObj, transactionHash := none }]
           users := [] }) := by
  exact (C9_blockchain_failure_nonblocking { votes := [], users := [] } "option1"
    emptyProofObj "nh-1" (by decide)).1

/-- C6 fails as stated on the code: the controller's check-and-record is a
`findOne` read followed by a separate `create` write across await points. In
the interleaved schedule where both checks run before either insert, the
losing request is answered with the forwarded duplicate-key error (500), not
with the already-voted rejection. -/
theorem C6_counterexample :
    (castVoteRace [] "nh-1" "A" "B" emptyProofObj (some "0xaa") (some "0xbb")).2.1
      = RaceResp.serverError
    ∧ (castVoteRace [] "nh-1" "A" "B" emptyProofObj (some "0xaa") (some "0xbb")).2.1
      ≠ RaceResp.alreadyVoted := by decide

/-- C6 (amended): under the concurrent schedule the controller's awaits
permit — both `findOne` checks before either `create` — both requests pass
the used-nullifier check; exactly one vote is recorded, but only because the
Vote schema's unique index on nullifierHash rejects the second insert, and the
losing request receives the forwarded duplicate-key error rather than the
already-voted rejection. -/
theorem C6_race_unique_index (votes0 : List DbVote) (nh ch1 ch2 : String)
    (pf : ZkProofObj) (tx1 tx2 : Option String)
    (h : raceCheck votes0 nh = false) :
    castVoteRace votes0 nh ch1 ch2 pf tx1 tx2
      = (.created tx1, .serverError,
         votes0 ++ [{ nullifierHash := nh, choice := ch1, proof := pf,
                      transactionHash := tx1 }])
    ∧ ((votes0 ++ [({ nullifierHash := nh, choice := ch1, proof := pf,
                      transactionHash := tx1 } : DbVote)]).filter
        (fun v => v.nullifierHash == nh)).length = 1 := by
  have hany : votes0.any (fun v => v.nullifierHash == nh) = false := h
  constructor
  · simp [castVoteRace, raceCheck, dbInsertUnique, hany, List.any_append]
  · have hnil : votes0.filter (fun v => v.nullifierHash == nh) = [] := by
      rw [List.filter_eq_nil_iff]
      intro a ha
      have hall := List.any_eq_false.mp hany
      exact hall a ha
    rw [List.filter_append, hnil]
    simp

/-- Witness for C6's amended theorem on an initially empty collection. -/
theorem C6_race_witness :
    castVoteRace [] "nh-1" "A" "B" emptyProofObj (some "0xaa") (some "0xbb")
      = (.created (some "0xaa"), .serverError,
         [] ++ [{ nullifierHash := "nh-1", choice := "A", proof := emptyProofObj,
                  transactionHash := some "0xaa" }])
    ∧ (([({ nullifierHash := "nh-1", choice := "A", proof := emptyProofObj,
            transactionHash := some "0xaa" } : DbVote)]).filter
        (fun v => v.nullifierHash == "nh-1")).length = 1 := by
  exact C6_race_unique_index [] "nh-1" "A" "B" emptyProofObj (some "0xaa") (some "0xbb")
    (by decide)

/-- C1: once a vote cast with a nullifier hash has been accepted and recorded,
a second cast request carrying the same nullifier hash is rejected with the
already-voted error and records no second vote — in the in-memory ledger of
part_000, in the database-backed controller of part_008, and in the on-chain
contract. -/
theorem C1_nullifier_single_use
    (stM stM1 : MemState) (v1 nh uid1 v2 uid2 : String)
    (hM : memCastVote stM v1 nh uid1 = (.success, stM1))
    (stD stD1 : DbState) (ch1 ch2 : String) (pf1 pf2 : ZkProofObj)
    (pv2 : Bool) (tx1 tx2 : Option String)
    (hD : dbCastVote stD (some ch1) (some pf1) nh true tx1 = (.created tx1, stD1))
    (stC stC1 : ContractState) (chc1 chc2 nhc : Nat)
    (hC : contractCastVote stC nhc chc1 = .ok stC1) :
    memCastVote stM1 v2 nh uid2 = (.alreadyVoted, stM1)
    ∧ dbCastVote stD1 (some ch2) (some pf2) nh pv2 tx2 = (.alreadyVoted, stD1)
    ∧ contractCastVote stC1 nhc chc2 = .error "Vote already cast with this nullifier" := by
  refine ⟨?_, ?_, ?_⟩
  · cases hc : stM.nullifierHashes.any (fun x => x == nh) with
    | true => simp [memCastVote, hc] at hM
    | false =>
      simp [memCastVote, hc] at hM
      rw [← hM]
      simp [memCastVote, List.any_append]
  · cases hc : stD.votes.any (fun v => v.nullifierHash == nh) with
    | true => simp [dbCastVote, hc] at hD
    | false =>
      simp [dbCastVote, hc] at hD
      rw [hD.symm]
      simp [dbCastVote, List.any_append]
  · cases ho : stC.votingOpen with
    | false => simp [contractCastVote, ho] at hC
    | true =>
      cases hu : stC.nullifierUsed.any (fun x => x == nhc) with
      | true => simp [contractCastVote, ho, hu] at hC
      | false =>
        simp [contractCastVote, ho, hu] at hC
        rw [hC.symm]
        simp [contractCastVote, ho, List.any_append]

/-- Witness for C1 at a concrete first-then-second cast in each of the three
models. -/
theorem C1_witness :
    memCastVote { voters := [], votes := [{ vote := "option1", nullifierHash := "nh-1" }],
                  nullifierHashes := ["nh-1"] } "option2" "nh-1" "u2"
      = (.alreadyVoted,
         { voters := [], votes := [{ vote := "option1", nullifierHash := "nh-1" }],
           nullifierHashes := ["nh-1"] })
    ∧ dbCastVote { votes := [{ nullifierHash := "nh-1", choice := "A",
                               proof := emptyProofObj, transactionHash := none }]
                   users := [] } (some "B") (some emptyProofObj) "nh-1" true none
      = (.alreadyVoted,
         { votes := [{ nullifierHash := "nh-1", choice := "A",
                       proof := emptyProofObj, transactionHash := none }]
           users := [] })
    ∧ contractCastVote { votingOpen := true, nullifierUsed := [11],
                         votesByChoice := [(5, 1)], totalVotes := 1 } 11 6
      = .error "Vote already cast with this nullifier" := by
  exact C1_nullifier_single_use
    { voters := [], votes := [], nullifierHashes := [] }
    { voters := [], votes := [{ vote := "option1", nullifierHash := "nh-1" }],
      nullifierHashes := ["nh-1"] }
    "option1" "nh-1" "u1" "option2" "u2" (by rfl)
    { votes := [], users := [] }
    { votes := [{ nullifierHash := "nh-1", choice := "A", proof := emptyProofObj,
                  transactionHash := none }], users := [] }
    "A" "B" emptyProofObj emptyProofObj true none none (by rfl)
    { votingOpen := true, nullifierUsed := [], votesByChoice := [], totalVotes := 0 }
    { votingOpen := true, nullifierUsed := [11], votesByChoice := [(5, 1)],
      totalVotes := 1 }
    5 6 11 (by rfl)

end ZkVoting
